import Mathlib

/-! ## Dosage calculator (`App.tsx`, Auto-Calculate Dosage effect)

The source reads `parseFloat` of the three string fields and, when none of
them is `NaN` and the strength is positive, computes
`(vol * target) / (strength * 10000)` litres and formats it. -/

/-- The litres of chemical required; the source's
`(vol * target) / (strength * 10000)`. -/
def litresRequired (vol target strength : ℚ) : ℚ :=
  vol * target / (strength * 10000)

/-- The source's `toFixed(2)` on a rational: two digits after the decimal
point, rounding to the nearest hundredth (ties away from the smaller
value, as in JS). -/
def toFixed2 (l : ℚ) : String :=
  let n : ℤ := round (l * 100)
  let m := n.natAbs
  (if n < 0 then "-" else "") ++ toString (m / 100) ++ "." ++
    (if m % 100 < 10 then "0" else "") ++ toString (m % 100)

/-- The display formatting of the computed amount: whole millilitres below
one litre, otherwise litres to two decimal places. -/
def formatAmount (l : ℚ) : String :=
  if l < 1 then toString (round (l * 1000)) ++ " ml"
  else toFixed2 l ++ " Litres"

/-- The dosage effect's guard and computation.  An argument of `none`
models a field whose `parseFloat` is `NaN`; the source requires all three
to parse and `strength > 0`. -/
def computeAmount (vol target strength : Option ℚ) : Option String :=
  match vol, target, strength with
  | some v, some t, some s =>
      if 0 < s then some (formatAmount (litresRequired v t s)) else none
  | _, _, _ => none

/-- The effect's write-back: the `amountAdded` field is overwritten only
when the computation produced a result; otherwise the previous display
value is kept. -/
def applyDosage (vol target strength : Option ℚ) (prev : String) : String :=
  match computeAmount vol target strength with
  | some amt => amt
  | none => prev

/-! ## pH-dependent contact-time advisor (`App.tsx`, pH & Contact Time effect) -/

/-- The advisor's result: the warning banner and the recommended contact
time, each `none` when no advisory applies. -/
structure Advice where
  warning : Option String
  recommendedTime : Option String
  deriving DecidableEq, Repr

/-- Whether `p` occurs at the very front of `l`. -/
def leadsWith : List Char → List Char → Bool
  | [], _ => true
  | _ :: _, [] => false
  | p :: ps, c :: cs => p == c && leadsWith ps cs

/-- Whether `p` occurs contiguously anywhere in `l`. -/
def hasSubList (p : List Char) : List Char → Bool
  | [] => p.isEmpty
  | c :: cs => leadsWith p (c :: cs) || hasSubList p cs

/-- Substring containment, modelling JS `String.prototype.includes`. -/
def strContains (s pat : String) : Bool :=
  hasSubList pat.data s.data

/-- The advisor as the source writes it: only for disinfectant names
containing the sodium-hypochlorite identifier, with `none` for a
non-parsing pH (`NaN`) and for pH below 7.6, and the PD 855468 step
table above that. -/
def advise (disinfectantName : String) (ph : Option ℚ) : Advice :=
  if strContains disinfectantName "Sodium Hypochlorite" then
    match ph with
    | none => ⟨none, none⟩
    | some p =>
      if p < 7.6 then ⟨none, none⟩
      else
        let mt : String × String :=
          if 7.6 ≤ p ∧ p < 7.7 then
            ("pH 7.6 detected. Increase contact time.", "1.00 Hour")
          else if 7.7 ≤ p ∧ p < 7.85 then
            ("pH ≥ 7.7 detected. High pH reduces chlorine efficacy.",
             "1.25 Hours (1h 15m)")
          else if 7.85 ≤ p ∧ p < 8.0 then
            ("pH ≥ 7.85 detected. Significant efficacy loss.",
             "1.67 Hours (1h 40m)")
          else if 8.0 ≤ p ∧ p < 8.45 then
            ("pH ≥ 8.0 detected. Severe efficacy loss.",
             "2.50 Hours (2h 30m)")
          else if 8.45 ≤ p then
            ("pH ≥ 8.45 detected. Chlorine not recommended without pH correction.",
             "5.00 Hours")
          else ("", "")
        ⟨some mt.1, some mt.2⟩
  else ⟨none, none⟩

/-- The advisor as the specification's step table reads: a single
half-open-band lookup, lower bounds inclusive, upper bounds exclusive,
final band open-ended. -/
def adviseSpec (disinfectantName : String) (ph : Option ℚ) : Advice :=
  if strContains disinfectantName "Sodium Hypochlorite" then
    match ph with
    | none => ⟨none, none⟩
    | some p =>
      if p < 7.6 then ⟨none, none⟩
      else if p < 7.7 then
        ⟨some "pH 7.6 detected. Increase contact time.", some "1.00 Hour"⟩
      else if p < 7.85 then
        ⟨some "pH ≥ 7.7 detected. High pH reduces chlorine efficacy.",
         some "1.25 Hours (1h 15m)"⟩
      else if p < 8.0 then
        ⟨some "pH ≥ 7.85 detected. Significant efficacy loss.",
         some "1.67 Hours (1h 40m)"⟩
      else if p < 8.45 then
        ⟨some "pH ≥ 8.0 detected. Severe efficacy loss.",
         some "2.50 Hours (2h 30m)"⟩
      else
        ⟨some "pH ≥ 8.45 detected. Chlorine not recommended without pH correction.",
         some "5.00 Hours"⟩
  else ⟨none, none⟩

/-! ## Data model (`types.ts`) -/

/-- The job kind: `'Pipework' | 'Tank'`. -/
inductive JobType where
  | Pipework
  | Tank
  deriving DecidableEq, Repr

/-- One tank entry (`Tank` in `types.ts`). -/
structure Tank where
  id : String
  description : String
  location : String
  capacity : String
  deriving DecidableEq, Repr

/-- One sampling location (`TestPoint` in `types.ts`). -/
structure TestPoint where
  id : String
  location : String
  system : String
  time : String
  ph : String
  initialPpm : String
  midPpm : String
  finalPpm : String
  deriving DecidableEq, Repr

/-- The job's business facts (`ReportData` in `types.ts`). -/
structure ReportData where
  jobType : JobType
  clientName : String
  commissionedBy : String
  siteName : String
  siteAddress : String
  serviceDate : String
  technicianName : String
  disinfectant : String
  chemicalStrength : String
  concentrationTarget : String
  contactTime : String
  systemVolume : String
  amountAdded : String
  neutralisingAgent : String
  preFlushDuration : String
  injectionPoint : String
  tanks : List Tank
  testPoints : List TestPoint
  incomingMainsPh : String
  residualChlorine : String
  scopeOfWorks : String
  comments : String
  deriving DecidableEq, Repr

/-- An opaque binary attachment: the browser `File` is a named, MIME-typed
byte blob; the core never inspects the bytes. -/
structure BrowserFile where
  name : String
  mimeType : String
  content : List Nat
  deriving DecidableEq, Repr

/-- One free-form evidence photo (`ReportPhoto` in `types.ts`). -/
structure ReportPhoto where
  id : String
  file : BrowserFile
  caption : String
  deriving DecidableEq, Repr

/-- Before/after photo pair for one tank (`TankPhotoSet` in `types.ts`). -/
structure TankPhotoSet where
  tankId : String
  before : Option BrowserFile
  after : Option BrowserFile
  deriving DecidableEq, Repr

/-- The in-memory attachment set (`ReportImages` in `types.ts`; the
`coverFooter` slot appears in the persistence paths of the source even
though the interface declaration omits it). -/
structure ReportImages where
  companyLogo : Option BrowserFile
  companyHeader : Option BrowserFile
  certificate : Option BrowserFile
  coverFooter : Option BrowserFile
  coverPhoto : Option BrowserFile
  labResults : Option BrowserFile
  dosingSetup : Option BrowserFile
  initialChemical : Option BrowserFile
  tankPhotos : List TankPhotoSet
  evidencePhotos : List ReportPhoto
  deriving DecidableEq, Repr

/-! ## Shareable-link codec (`services/collaborationService.ts`)

`generateShareableUrl` projects a fixed subset of `ReportData` onto a
short-keyed object, JSON-stringifies it, passes it through
`btoa ∘ encodeURIComponent` and embeds it as the `share` query parameter;
`parseShareableUrl` inverts those layers and rebuilds a full `ReportData`,
backfilling every missing or falsy field with the new-record defaults.
The JSON and base64/percent-encoding layers are mutually inverse on these
values, so the token is modelled by the structured value itself. -/

/-- The 64-character base64 alphabet, in index order. -/
def b64Alphabet : List Char :=
  [ 'A','B','C','D','E','F','G','H','I','J','K','L','M','N','O','P',
    'Q','R','S','T','U','V','W','X','Y','Z',
    'a','b','c','d','e','f','g','h','i','j','k','l','m','n','o','p',
    'q','r','s','t','u','v','w','x','y','z',
    '0','1','2','3','4','5','6','7','8','9','+','/' ]

/-- The character encoding one six-bit group. -/
def sextetToChar (s : Nat) : Char :=
  b64Alphabet.getD s 'A'

/-- The six-bit group a character stands for, or `none` when it is not in
the alphabet. -/
def charIdx (c : Char) : Option Nat :=
  let i := b64Alphabet.indexOf c
  if i < b64Alphabet.length then some i else none

/-- Base64 encoding of a byte list, three bytes to four characters, with
`=` padding on the final group. -/
def encodeB64 : List Nat → List Char
  | [] => []
  | [b1] =>
      [sextetToChar (b1 / 4), sextetToChar (b1 % 4 * 16), '=', '=']
  | [b1, b2] =>
      [sextetToChar (b1 / 4), sextetToChar (b1 % 4 * 16 + b2 / 16),
       sextetToChar (b2 % 16 * 4), '=']
  | b1 :: b2 :: b3 :: rest =>
      sextetToChar (b1 / 4) :: sextetToChar (b1 % 4 * 16 + b2 / 16) ::
      sextetToChar (b2 % 16 * 4 + b3 / 64) :: sextetToChar (b3 % 64) ::
      encodeB64 rest

/-- Base64 decoding, four characters to three bytes, honouring `=`
padding; `none` on any malformed input. -/
def decodeB64 : List Char → Option (List Nat)
  | [] => some []
  | c1 :: c2 :: c3 :: c4 :: rest =>
    match charIdx c1, charIdx c2 with
    | some s1, some s2 =>
      if c3 = '=' then
        if c4 = '=' then
          if rest = [] then some [s1 * 4 + s2 / 16] else none
        else none
      else
        match charIdx c3 with
        | some s3 =>
          if c4 = '=' then
            if rest = [] then some [s1 * 4 + s2 / 16, s2 % 16 * 16 + s3 / 4]
            else none
          else
            match charIdx c4 with
            | some s4 =>
              match decodeB64 rest with
              | some bs =>
                  some ((s1 * 4 + s2 / 16) :: (s2 % 16 * 16 + s3 / 4) ::
                        (s3 % 4 * 64 + s4) :: bs)
              | none => none
            | none => none
        | none => none
    | _, _ => none
  | _ => none

/-- `fileToBase64`: the data-URI text representation of a blob. -/
def fileToBase64 (file : BrowserFile) : String :=
  "data:" ++ file.mimeType ++ ";base64," ++ String.mk (encodeB64 file.content)

/-- Strips an expected leading run of characters, returning the remainder
or `none` when the run is absent. -/
def dropLead : List Char → List Char → Option (List Char)
  | [], rest => some rest
  | _ :: _, [] => none
  | p :: ps, c :: cs => if c = p then dropLead ps cs else none

/-- Splits off the MIME type at the first `;`, returning it together with
what follows the `;`, or `none` when there is no `;`. -/
def splitMime : List Char → Option (List Char × List Char)
  | [] => none
  | c :: cs =>
    if c = ';' then some ([], cs)
    else (splitMime cs).map fun q => (c :: q.1, q.2)

/-- `base64ToFile`: parses a base64 data URL back into a blob carrying the
URL's MIME type and the supplied file name. -/
def base64ToFile (dataUrl : String) (fileName : String) : Option BrowserFile :=
  match dropLead "data:".data dataUrl.data with
  | none => none
  | some afterScheme =>
    match splitMime afterScheme with
    | none => none
    | some (mime, afterSemi) =>
      match dropLead "base64,".data afterSemi with
      | none => none
      | some payload =>
        match decodeB64 payload with
        | none => none
        | some bytes => some ⟨fileName, String.mk mime, bytes⟩

/-! ## Serialized attachments and the project store (database service)

The store is an IndexedDB object store keyed by `id`; it is modelled as a
list of records with keyed lookup and keyed upsert.  The clock values a
call would read (`Date.now()` for minted ids, `new Date().toISOString()`
for timestamps) are passed in explicitly. -/

/-- One serialized evidence photo (`{id, file, caption}`). -/
structure SerializedPhoto where
  id : String
  file : String
  caption : String
  deriving DecidableEq, Repr

/-- One serialized tank photo pair (`{tankId, before?, after?}`). -/
structure SerializedTankPhoto where
  tankId : String
  before : Option String
  after : Option String
  deriving DecidableEq, Repr

/-- The serialized attachment set (`SerializedImages` in the database
service). -/
structure SerializedImages where
  companyLogo : Option String
  companyHeader : Option String
  certificate : Option String
  coverFooter : Option String
  coverPhoto : Option String
  labResults : Option String
  dosingSetup : Option String
  initialChemical : Option String
  tankPhotos : List SerializedTankPhoto
  evidencePhotos : List SerializedPhoto
  deriving DecidableEq, Repr

/-- `serializeImages`: every attachment goes through the codec text
representation. -/
def serializeImages (images : ReportImages) : SerializedImages where
  companyLogo := images.companyLogo.map fileToBase64
  companyHeader := images.companyHeader.map fileToBase64
  certificate := images.certificate.map fileToBase64
  coverFooter := images.coverFooter.map fileToBase64
  coverPhoto := images.coverPhoto.map fileToBase64
  labResults := images.labResults.map fileToBase64
  dosingSetup := images.dosingSetup.map fileToBase64
  initialChemical := images.initialChemical.map fileToBase64
  tankPhotos := images.tankPhotos.map fun t =>
    ⟨t.tankId, t.before.map fileToBase64, t.after.map fileToBase64⟩
  evidencePhotos := images.evidencePhotos.map fun p =>
    ⟨p.id, fileToBase64 p.file, p.caption⟩

/-- Decodes one optional codec text; `none` input stays `none`, a present
text must decode. -/
def decodeOptImage (text : Option String) (fileName : String) :
    Option (Option BrowserFile) :=
  match text with
  | none => some none
  | some s => (base64ToFile s fileName).map some

/-- Decodes a serialized evidence-photo list, failing on the first
undecodable entry. -/
def decodePhotoList : List SerializedPhoto → Option (List ReportPhoto)
  | [] => some []
  | p :: ps =>
    match base64ToFile p.file "evidence.jpg" with
    | none => none
    | some f => (decodePhotoList ps).map fun rest => ⟨p.id, f, p.caption⟩ :: rest

/-- Decodes a serialized tank-photo list, failing on the first
undecodable entry. -/
def decodeTankPhotoList : List SerializedTankPhoto → Option (List TankPhotoSet)
  | [] => some []
  | t :: ts =>
    match decodeOptImage t.before "before.jpg" with
    | none => none
    | some b =>
      match decodeOptImage t.after "after.jpg" with
      | none => none
      | some a => (decodeTankPhotoList ts).map fun rest => ⟨t.tankId, b, a⟩ :: rest

/-- `deserializeImages`: decodes every attachment; any codec failure
aborts (the source's promise rejection). -/
def deserializeImages (s : SerializedImages) : Option ReportImages :=
  match decodeOptImage s.companyLogo "logo.png" with
  | none => none
  | some companyLogo =>
  match decodeOptImage s.companyHeader "header.png" with
  | none => none
  | some companyHeader =>
  match decodeOptImage s.certificate "cert.png" with
  | none => none
  | some certificate =>
  match decodeOptImage s.coverFooter "footer.png" with
  | none => none
  | some coverFooter =>
  match decodeOptImage s.coverPhoto "cover.jpg" with
  | none => none
  | some coverPhoto =>
  match decodeOptImage s.labResults "lab.jpg" with
  | none => none
  | some labResults =>
  match decodeOptImage s.dosingSetup "dosing.jpg" with
  | none => none
  | some dosingSetup =>
  match decodeOptImage s.initialChemical "chem.jpg" with
  | none => none
  | some initialChemical =>
  match decodePhotoList s.evidencePhotos with
  | none => none
  | some evidencePhotos =>
  match decodeTankPhotoList s.tankPhotos with
  | none => none
  | some tankPhotos =>
    some ⟨companyLogo, companyHeader, certificate, coverFooter, coverPhoto,
          labResults, dosingSetup, initialChemical, tankPhotos, evidencePhotos⟩

/-- One stored project snapshot (`SavedProject`). -/
structure SavedProject where
  id : String
  name : String
  clientName : String
  siteName : String
  createdAt : String
  updatedAt : String
  data : ReportData
  images : SerializedImages
  deriving DecidableEq, Repr

/-- Keyed lookup in the object store (`store.get(id)`). -/
def getProject : List SavedProject → String → Option SavedProject
  | [], _ => none
  | q :: qs, id => if q.id = id then some q else getProject qs id

/-- Keyed upsert in the object store (`store.put(project)` with
`keyPath: 'id'`): replaces the record under the same key, or appends. -/
def putProject : List SavedProject → SavedProject → List SavedProject
  | [], p => [p]
  | q :: qs, p => if q.id = p.id then p :: qs else q :: putProject qs p

/-- `saveProject`: mints or reuses the id (a JS falsy test, so an empty
`projectId` string also mints), preserves an existing record's
`createdAt` (falling back to now when the record is absent or its
`createdAt` is falsy), stamps `updatedAt` with now, and upserts.
`nowMs` is the call's `Date.now()` rendering, `nowIso` its
`new Date().toISOString()`. -/
def saveProject (store : List SavedProject) (data : ReportData)
    (images : ReportImages) (projectId : Option String)
    (nowMs nowIso : String) : List SavedProject × String :=
  let id := match projectId with
    | some pid => if pid = "" then "project-" ++ nowMs else pid
    | none => "project-" ++ nowMs
  let createdAt := match projectId with
    | some pid =>
      if pid = "" then nowIso
      else match getProject store pid with
        | some p => if p.createdAt = "" then nowIso else p.createdAt
        | none => nowIso
    | none => nowIso
  let project : SavedProject :=
    { id := id
      name := if data.siteName = "" then "Untitled Project" else data.siteName
      clientName := data.clientName
      siteName := data.siteName
      createdAt := createdAt
      updatedAt := nowIso
      data := data
      images := serializeImages images }
  (putProject store project, id)

/-! ## Draft autosave (database service, localStorage slot)

The slot holds the `JSON.stringify` of `{timestamp, data, images}`.  The
outcome of `JSON.parse` on the slot's content is modelled by an inductive:
either the well-formed draft object, or a marker for content that fails to
parse.  A storage write failure (quota) is an explicit input. -/

/-- The draft slot's content as `JSON.parse` sees it. -/
inductive DraftSlot where
  | wellFormed (timestamp : String) (data : ReportData) (images : SerializedImages)
  | malformed (raw : String)
  deriving DecidableEq, Repr

/-- `saveAutoDraft`: serializes and overwrites the slot inside a
`try`/`catch`; when the storage write throws (`setItemThrows`), the error
is logged and swallowed, and the slot keeps its previous content.  The
returned value is the new slot state; the function has no error outcome. -/
def saveAutoDraft (slot : Option DraftSlot) (data : ReportData)
    (images : ReportImages) (nowIso : String) (setItemThrows : Bool) :
    Option DraftSlot :=
  if setItemThrows then slot
  else some (.wellFormed nowIso data (serializeImages images))

/-- `loadAutoDraft`: absent slot and unparsable content both give `none`;
a parsed draft whose attachments fail to decode also gives `none` (the
source's `catch`). -/
def loadAutoDraft : Option DraftSlot → Option (ReportData × ReportImages)
  | none => none
  | some (.malformed _) => none
  | some (.wellFormed _ data images) =>
    (deserializeImages images).map fun imgs => (data, imgs)

/-! ## Project-file loader (`handleLoadProjectFile` in `App.tsx`)

The chosen file's text is `JSON.parse`d; a file whose parse fails is
modelled as `none`.  The parsed object must have truthy `data` and
`images` keys.  The handler then commits `setData(parsed.data)` and only
afterwards decodes the images; a decode failure is caught after that
commit, so the previous images survive but the previous data does not. -/

/-- A parsed project file: the `data` and `images` keys, each `none` when
missing or falsy.  The file's `version` and `timestamp` keys are not read
by the loader. -/
structure ProjectFile where
  data : Option ReportData
  images : Option SerializedImages
  deriving DecidableEq, Repr

/-- The in-memory working copy the handler mutates. -/
structure AppState where
  data : ReportData
  images : ReportImages
  deriving DecidableEq, Repr

/-- `handleLoadProjectFile` as a state transition; the `Bool` is whether
the load succeeded (`true`) or the error toast was shown (`false`).
`none` input models a file whose text fails `JSON.parse`. -/
def handleLoadProjectFile (st : AppState) (file : Option ProjectFile) :
    AppState × Bool :=
  match file with
  | none => (st, false)
  | some pf =>
    match pf.data, pf.images with
    | some d, some imgs =>
      match deserializeImages imgs with
      | some newImages => (⟨d, newImages⟩, true)
      | none => (⟨d, st.images⟩, false)
    | _, _ => (st, false)

/-! ## Tank-photo synchronisation (`App.tsx`, tankPhotos sync effect) -/

/-- Keyed lookup in a JS `Map` built from an association list: a later
entry for the same key overwrites an earlier one. -/
def lookupTankPhoto : List TankPhotoSet → String → Option TankPhotoSet
  | [], _ => none
  | t :: ts, id =>
    match lookupTankPhoto ts id with
    | some r => some r
    | none => if t.tankId = id then some t else none

/-- The effect keeping `images.tankPhotos` aligned with `data.tanks`: for
a Tank job, each tank keeps its existing slot or gets a fresh empty one;
for other job kinds the images are untouched. -/
def syncTankPhotos (jobType : JobType) (tanks : List Tank)
    (images : ReportImages) : ReportImages :=
  if jobType = JobType.Tank then
    { images with
      tankPhotos := tanks.map fun tank =>
        (lookupTankPhoto images.tankPhotos tank.id).getD
          ⟨tank.id, none, none⟩ }
  else images

/-! ## Demonstration data for concrete instantiations -/

/-- A small attachment blob. -/
def demoFile : BrowserFile := ⟨"a.png", "image/png", [1, 2]⟩

/-- A representative job record. -/
def demoData : ReportData where
  jobType := .Pipework
  clientName := "Acme"
  commissionedBy := ""
  siteName := "Site A"
  siteAddress := "1 Road"
  serviceDate := "2026-01-01"
  technicianName := "T"
  disinfectant := "Sodium Hypochlorite"
  chemicalStrength := "14"
  concentrationTarget := "50"
  contactTime := "1 Hour"
  systemVolume := "1000"
  amountAdded := ""
  neutralisingAgent := "Sodium Thiosulfate"
  preFlushDuration := "10 Minutes"
  injectionPoint := ""
  tanks := []
  testPoints := []
  incomingMainsPh := "7.0"
  residualChlorine := "<0.5"
  scopeOfWorks := ""
  comments := ""

/-- An empty attachment set. -/
def demoImages : ReportImages :=
  ⟨none, none, none, none, none, none, none, none, [], []⟩

/-- The record a second save should overwrite with. -/
def demoData2 : ReportData := { demoData with clientName := "Other Client" }

/-- A one-project store produced by a first save at time 100 / "T0". -/
def demoStore : List SavedProject :=
  (saveProject [] demoData demoImages none "100" "T0").1

/-- The snapshot the first save stores. -/
def demoSaved : SavedProject where
  id := "project-100"
  name := "Site A"
  clientName := "Acme"
  siteName := "Site A"
  createdAt := "T0"
  updatedAt := "T0"
  data := demoData
  images := serializeImages demoImages

/-- A pair of demonstration tanks. -/
def demoTank1 : Tank := ⟨"tank-1", "Main CWST", "Plant Room", "1000 Litres"⟩

/-- A second demonstration tank with no existing photo slot. -/
def demoTank2 : Tank := ⟨"tank-2", "Header", "Roof", "500 Litres"⟩

/-- An attachment set with an existing photo slot for the first tank. -/
def demoTankImages : ReportImages :=
  { demoImages with tankPhotos := [⟨"tank-1", some demoFile, none⟩] }

/-- The in-memory working copy before the import. -/
def demoState : AppState := ⟨demoData, demoImages⟩

/-- A serialized image set whose logo text is not a well-formed codec
payload. -/
def demoBadImages : SerializedImages :=
  ⟨some "garbage", none, none, none, none, none, none, none, [], []⟩

/-- The documented example: 1000 L at 50 PPM with 14 % strength needs
5/14 of a litre, displayed as 357 ml. -/
lemma computeAmount_ex1000 :
    computeAmount (some 1000) (some 50) (some 14) = some "357 ml" := by
  have h : litresRequired 1000 50 14 = 5 / 14 := by unfold litresRequired; norm_num
  have h2 : round ((5 : ℚ) / 14 * 1000) = 357 := by rw [round_eq]; norm_num
  simp only [computeAmount, if_pos (by norm_num : (0:ℚ) < 14), formatAmount, h,
    if_pos (by norm_num : (5:ℚ)/14 < 1), h2]
  rfl

/-- The litre-range branch of the formatting: 10000 L at 50 PPM with 14 %
strength displays as "3.57 Litres". -/
lemma computeAmount_ex10000 :
    computeAmount (some 10000) (some 50) (some 14) = some "3.57 Litres" := by
  have h : litresRequired 10000 50 14 = 25 / 7 := by unfold litresRequired; norm_num
  have h2 : round ((25 : ℚ) / 7 * 100) = 357 := by rw [round_eq]; norm_num
  simp only [computeAmount, if_pos (by norm_num : (0:ℚ) < 14), formatAmount, h,
    if_neg (by norm_num : ¬ ((25:ℚ)/7 < 1)), toFixed2, h2]
  rfl

/-- A negative parsed volume passes the source's guard and yields a
(negative) result. -/
lemma computeAmount_exNeg :
    computeAmount (some (-5)) (some 50) (some 14) = some "-2 ml" := by
  have h : litresRequired (-5) 50 14 = -1 / 560 := by unfold litresRequired; norm_num
  have h2 : round ((-1 : ℚ) / 560 * 1000) = -2 := by rw [round_eq]; norm_num
  simp only [computeAmount, if_pos (by norm_num : (0:ℚ) < 14), formatAmount, h,
    if_pos (by norm_num : (-1:ℚ)/560 < 1), h2]
  rfl

/-! ## Claims about the dosage calculator and the advisor -/

/-- Claim C1: for positive parsed inputs the dosage calculator
deterministically produces the documented formula's value,
formatted as whole millilitres below one litre and as litres to two
decimal places otherwise; in particular volume 1000, target 50,
strength 14 yields "357 ml". -/
theorem dosage_formula_and_format (v t s : ℚ)
    (hv : 0 < v) (ht : 0 < t) (hs : 0 < s) :
    computeAmount (some v) (some t) (some s) =
      some (formatAmount (v * t / (s * 10000))) ∧
    computeAmount (some 1000) (some 50) (some 14) = some "357 ml" := by
  constructor
  · simp [computeAmount, litresRequired, hs]
  · exact computeAmount_ex1000

/-- Witness for the dosage-formula claim at the documented example. -/
theorem dosage_formula_and_format_witness :
    (0 : ℚ) < 1000 ∧ (0 : ℚ) < 50 ∧ (0 : ℚ) < 14 ∧
    (computeAmount (some 1000) (some 50) (some 14) =
        some (formatAmount (1000 * 50 / (14 * 10000))) ∧
      computeAmount (some 1000) (some 50) (some 14) = some "357 ml") :=
  ⟨by decide, by decide, by decide,
    dosage_formula_and_format 1000 50 14 (by decide) (by decide) (by decide)⟩

/-- Claim C2: the contact-time advisor is the specification's half-open
step-table lookup — silent for non-hypochlorite disinfectants, for a
non-parsing pH and for pH below 7.6 — and the band boundaries are exact:
pH 7.7 selects the second band, 8.449999 the fourth, 8.45 the fifth. -/
theorem advise_matches_step_table :
    (∀ name ph, advise name ph = adviseSpec name ph) ∧
    advise "Sodium Hypochlorite" (some 7.7) =
      ⟨some "pH ≥ 7.7 detected. High pH reduces chlorine efficacy.",
       some "1.25 Hours (1h 15m)"⟩ ∧
    advise "Sodium Hypochlorite" (some 8.449999) =
      ⟨some "pH ≥ 8.0 detected. Severe efficacy loss.",
       some "2.50 Hours (2h 30m)"⟩ ∧
    advise "Sodium Hypochlorite" (some 8.45) =
      ⟨some "pH ≥ 8.45 detected. Chlorine not recommended without pH correction.",
       some "5.00 Hours"⟩ := by
  have hc : strContains "Sodium Hypochlorite" "Sodium Hypochlorite" = true := by
    decide
  refine ⟨?_, ?_, ?_, ?_⟩
  · intro name ph
    unfold advise adviseSpec
    by_cases hn : strContains name "Sodium Hypochlorite"
    · simp only [hn, if_true]
      cases ph with
      | none => rfl
      | some p =>
        by_cases h1 : p < 7.6
        · simp [h1]
        · by_cases h2 : p < 7.7
          · simp [h1, h2, not_lt.mp h1]
          · by_cases h3 : p < 7.85
            · simp [h1, h2, h3, not_lt.mp h2]
            · by_cases h4 : p < 8.0
              · simp [h1, h2, h3, h4, not_lt.mp h3]
              · by_cases h5 : p < 8.45
                · simp [h1, h2, h3, h4, h5, not_lt.mp h4]
                · simp [h1, h2, h3, h4, h5, not_lt.mp h5]
    · simp [hn]
  · simp only [advise, hc]
    norm_num
  · simp only [advise, hc]
    norm_num
  · simp only [advise, hc]
    norm_num

/-- Claim C6, counterexample: a volume that parses as the negative number
-5 fails the claim's "positive finite" precondition, yet the calculator
produces a result rather than leaving the field alone. -/
theorem dosage_negative_volume_still_computes :
    computeAmount (some (-5)) (some 50) (some 14) = some "-2 ml" ∧
    computeAmount (some (-5)) (some 50) (some 14) ≠ none := by
  refine ⟨computeAmount_exNeg, ?_⟩
  rw [computeAmount_exNeg]
  exact fun h => Option.noConfusion h

/-- Claim C6 as amended: the calculator yields no result exactly when
some input fails to parse (NaN) or the strength is not positive — the
source's guard does not require volume or target to be positive — and
whenever it yields no result the previously displayed value is kept. -/
theorem dosage_guard_characterisation (vol target strength : Option ℚ)
    (prev : String) :
    (computeAmount vol target strength = none ↔
      vol = none ∨ target = none ∨ strength = none ∨
        ∃ s, strength = some s ∧ s ≤ 0) ∧
    (computeAmount vol target strength = none →
      applyDosage vol target strength prev = prev) := by
  constructor
  · rcases vol with _ | v <;> rcases target with _ | t <;> rcases strength with _ | s <;>
      simp [computeAmount]
  · intro h
    simp [applyDosage, h]

/-- Witness for the amended guard claim: a NaN volume produces no result
and keeps the previous display. -/
theorem dosage_guard_characterisation_witness :
    computeAmount none (some 50) (some 14) = none ∧
    applyDosage none (some 50) (some 14) "0.36 Litres" = "0.36 Litres" := by
  have h := dosage_guard_characterisation none (some 50) (some 14) "0.36 Litres"
  have hn : computeAmount none (some 50) (some 14) = none := h.1.mpr (Or.inl rfl)
  exact ⟨hn, h.2 hn⟩

/-- Claim C9: the required amount is strictly increasing in volume and in
target concentration and strictly decreasing in strength, over positive
inputs with the other two fixed. -/
theorem dosage_monotonicity (v v' t t' s s' : ℚ)
    (hv : 0 < v) (ht : 0 < t) (hs : 0 < s) :
    (v < v' → litresRequired v t s < litresRequired v' t s) ∧
    (t < t' → litresRequired v t s < litresRequired v t' s) ∧
    (s < s' → litresRequired v t s' < litresRequired v t s) := by
  have hd : (0 : ℚ) < s * 10000 := by positivity
  refine ⟨?_, ?_, ?_⟩ <;> intro h <;> unfold litresRequired
  · rw [div_lt_div_iff₀ hd hd]
    exact mul_lt_mul_of_pos_right (mul_lt_mul_of_pos_right h ht) hd
  · rw [div_lt_div_iff₀ hd hd]
    exact mul_lt_mul_of_pos_right (mul_lt_mul_of_pos_left h hv) hd
  · exact div_lt_div_of_pos_left (by positivity) hd (by linarith)

/-- Witness for the monotonicity claim at concrete inputs. -/
theorem dosage_monotonicity_witness :
    (0 : ℚ) < 1000 ∧ (0 : ℚ) < 50 ∧ (0 : ℚ) < 14 ∧
    litresRequired 1000 50 14 < litresRequired 2000 50 14 ∧
    litresRequired 1000 50 14 < litresRequired 1000 60 14 ∧
    litresRequired 1000 50 20 < litresRequired 1000 50 14 := by
  have h := dosage_monotonicity 1000 2000 50 60 14 20
    (by decide) (by decide) (by decide)
  exact ⟨by decide, by decide, by decide,
    h.1 (by decide), h.2.1 (by decide), h.2.2 (by decide)⟩

/-! ## Claims about the binary/text codec -/

/-- Alphabet lookup inverts alphabet indexing on every six-bit value. -/
lemma charIdx_sextetToChar : ∀ s, s < 64 → charIdx (sextetToChar s) = some s := by
  decide

/-- No alphabet character is the padding character. -/
lemma sextetToChar_ne_pad : ∀ s, s < 64 → sextetToChar s ≠ '=' := by
  decide

/-- Base64 decoding inverts base64 encoding on byte lists. -/
lemma decodeB64_encodeB64 (l : List Nat) (hl : ∀ b ∈ l, b < 256) :
    decodeB64 (encodeB64 l) = some l := by
  induction l using encodeB64.induct with
  | case1 => rfl
  | case2 b1 =>
    have h1 : b1 < 256 := hl b1 (by simp)
    have e1 := charIdx_sextetToChar (b1 / 4) (by omega)
    have e2 := charIdx_sextetToChar (b1 % 4 * 16) (by omega)
    simp [encodeB64, decodeB64, e1, e2]
    omega
  | case3 b1 b2 =>
    have h1 : b1 < 256 := hl b1 (by simp)
    have h2 : b2 < 256 := hl b2 (by simp)
    have e1 := charIdx_sextetToChar (b1 / 4) (by omega)
    have e2 := charIdx_sextetToChar (b1 % 4 * 16 + b2 / 16) (by omega)
    have e3 := charIdx_sextetToChar (b2 % 16 * 4) (by omega)
    have n3 := sextetToChar_ne_pad (b2 % 16 * 4) (by omega)
    simp [encodeB64, decodeB64, e1, e2, e3, n3]
    omega
  | case4 b1 b2 b3 rest ih =>
    have h1 : b1 < 256 := hl b1 (by simp)
    have h2 : b2 < 256 := hl b2 (by simp)
    have h3 : b3 < 256 := hl b3 (by simp)
    have hrest : ∀ b ∈ rest, b < 256 := fun b hb => hl b (by simp [hb])
    have e1 := charIdx_sextetToChar (b1 / 4) (by omega)
    have e2 := charIdx_sextetToChar (b1 % 4 * 16 + b2 / 16) (by omega)
    have e3 := charIdx_sextetToChar (b2 % 16 * 4 + b3 / 64) (by omega)
    have e4 := charIdx_sextetToChar (b3 % 64) (by omega)
    have n3 := sextetToChar_ne_pad (b2 % 16 * 4 + b3 / 64) (by omega)
    have n4 := sextetToChar_ne_pad (b3 % 64) (by omega)
    simp [encodeB64, decodeB64, e1, e2, e3, e4, n3, n4, ih hrest]
    omega

/-- Stripping a literal leading run after appending it is the identity. -/
lemma dropLead_append (p r : List Char) : dropLead p (p ++ r) = some r := by
  induction p with
  | nil => rfl
  | cons c cs ih => simp [dropLead, ih]

/-- Splitting at the first semicolon after appending one behind a
semicolon-free head recovers both parts. -/
lemma splitMime_append (m r : List Char) (hm : ';' ∉ m) :
    splitMime (m ++ ';' :: r) = some (m, r) := by
  induction m with
  | nil => simp [splitMime]
  | cons c cs ih =>
    have hc : c ≠ ';' := fun h => hm (h ▸ List.mem_cons_self c cs)
    simp [splitMime, hc, ih fun h => hm (List.mem_cons_of_mem _ h)]

/-- Claim C7: decoding the data-URI text produced by encoding a blob
reproduces the blob's bytes exactly, and the MIME type is carried through
the data URL; the file name is the decoder caller's suggested name, as in
the source. -/
theorem codec_round_trip (f : BrowserFile) (name : String)
    (hb : ∀ b ∈ f.content, b < 256) (hm : ';' ∉ f.mimeType.data) :
    base64ToFile (fileToBase64 f) name = some ⟨name, f.mimeType, f.content⟩ := by
  have hsemi : (";base64,".data : List Char) = ';' :: "base64,".data := rfl
  have hdata :
      ("data:" ++ f.mimeType ++ ";base64," ++ String.mk (encodeB64 f.content)).data
        = "data:".data ++
            (f.mimeType.data ++ (';' :: ("base64,".data ++ encodeB64 f.content))) := by
    simp [String.data_append, hsemi]
  unfold base64ToFile fileToBase64
  rw [hdata, dropLead_append]
  simp only [splitMime_append _ _ hm, dropLead_append, decodeB64_encodeB64 _ hb]

/-- Witness for the codec round trip on a non-trivial binary payload and
MIME type. -/
theorem codec_round_trip_witness :
    (∀ b ∈ [(0 : Nat), 255, 16, 128, 7], b < 256) ∧
    ';' ∉ "image/png".data ∧
    base64ToFile (fileToBase64 ⟨"p", "image/png", [0, 255, 16, 128, 7]⟩)
        "restored.png" =
      some ⟨"restored.png", "image/png", [0, 255, 16, 128, 7]⟩ :=
  ⟨by decide, by decide, codec_round_trip _ _ (by decide) (by decide)⟩

/-! ## Claims about the project store -/

/-- A keyed upsert is observable under its own key. -/
lemma getProject_putProject (store : List SavedProject) (p : SavedProject) :
    getProject (putProject store p) p.id = some p := by
  induction store with
  | nil => simp [putProject, getProject]
  | cons q qs ih =>
    by_cases h : q.id = p.id
    · simp [putProject, getProject, h]
    · simp [putProject, getProject, h, ih]

/-- Claim C3: re-saving under an existing id keeps the stored record's
original `createdAt`, stamps `updatedAt` with the second call's time,
overwrites every other field from the new values, and returns the same
id. -/
theorem saveProject_upsert (store : List SavedProject) (p : SavedProject)
    (d : ReportData) (imgs : ReportImages) (id nowMs nowIso : String)
    (hget : getProject store id = some p) (hid : id ≠ "")
    (hcreated : p.createdAt ≠ "") :
    (saveProject store d imgs (some id) nowMs nowIso).2 = id ∧
    getProject (saveProject store d imgs (some id) nowMs nowIso).1 id =
      some { id := id
             name := if d.siteName = "" then "Untitled Project" else d.siteName
             clientName := d.clientName
             siteName := d.siteName
             createdAt := p.createdAt
             updatedAt := nowIso
             data := d
             images := serializeImages imgs } := by
  constructor
  · simp only [saveProject, if_neg hid]
  · simp only [saveProject, if_neg hid, hget, if_neg hcreated]
    exact getProject_putProject store _

/-- Witness for the upsert claim: save a fresh project at time "T0", then
save again under its id at time "T1". -/
theorem saveProject_upsert_witness :
    getProject demoStore "project-100" = some demoSaved ∧
    ("project-100" : String) ≠ "" ∧ demoSaved.createdAt ≠ "" ∧
    ((saveProject demoStore demoData2 demoImages (some "project-100") "200" "T1").2
        = "project-100" ∧
      getProject
          (saveProject demoStore demoData2 demoImages (some "project-100") "200" "T1").1
          "project-100" =
        some { id := "project-100"
               name := if demoData2.siteName = "" then "Untitled Project"
                       else demoData2.siteName
               clientName := demoData2.clientName
               siteName := demoData2.siteName
               createdAt := demoSaved.createdAt
               updatedAt := "T1"
               data := demoData2
               images := serializeImages demoImages }) := by
  have hget : getProject demoStore "project-100" = some demoSaved := by decide
  exact ⟨hget, by decide, by decide,
    saveProject_upsert demoStore demoSaved demoData2 demoImages
      "project-100" "200" "T1" hget (by decide) (by decide)⟩

/-! ## Claims about the tank-photo synchronisation -/

/-- A found tank-photo slot carries the key it was found under. -/
lemma lookupTankPhoto_id (tps : List TankPhotoSet) (id : String)
    (s : TankPhotoSet) (h : lookupTankPhoto tps id = some s) : s.tankId = id := by
  induction tps with
  | nil => simp [lookupTankPhoto] at h
  | cons t ts ih =>
    simp only [lookupTankPhoto] at h
    cases hrec : lookupTankPhoto ts id with
    | some r =>
      rw [hrec] at h
      cases h
      exact ih hrec
    | none =>
      rw [hrec] at h
      by_cases ht : t.tankId = id
      · rw [if_pos ht] at h
        cases h
        exact ht
      · rw [if_neg ht] at h
        simp at h

/-- Claim C10: for a Tank job the synchronised photo list is keyed 1:1
with the tank list — a slot already present for a surviving tank id is
kept with its photos, every other tank gets a fresh empty slot — and
non-Tank jobs leave the attachment set untouched. -/
theorem tankPhotos_sync (tanks : List Tank) (images : ReportImages) :
    ((syncTankPhotos JobType.Tank tanks images).tankPhotos.map
        (fun tp => tp.tankId) = tanks.map fun t => t.id) ∧
    (∀ t ∈ tanks, ∀ s, lookupTankPhoto images.tankPhotos t.id = some s →
        s ∈ (syncTankPhotos JobType.Tank tanks images).tankPhotos) ∧
    (∀ t ∈ tanks, lookupTankPhoto images.tankPhotos t.id = none →
        (⟨t.id, none, none⟩ : TankPhotoSet) ∈
          (syncTankPhotos JobType.Tank tanks images).tankPhotos) ∧
    (∀ jt, jt ≠ JobType.Tank → syncTankPhotos jt tanks images = images) := by
  refine ⟨?_, ?_, ?_, ?_⟩
  · simp only [syncTankPhotos, eq_self_iff_true, if_true, List.map_map]
    apply List.map_congr_left
    intro t _
    cases hlk : lookupTankPhoto images.tankPhotos t.id with
    | some s => simp [hlk, lookupTankPhoto_id _ _ _ hlk]
    | none => simp [hlk]
  · intro t ht s hlk
    simp only [syncTankPhotos, eq_self_iff_true, if_true]
    exact List.mem_map.mpr ⟨t, ht, by rw [hlk]; rfl⟩
  · intro t ht hlk
    simp only [syncTankPhotos, eq_self_iff_true, if_true]
    exact List.mem_map.mpr ⟨t, ht, by rw [hlk]; rfl⟩
  · intro jt hjt
    cases jt with
    | Tank => exact absurd rfl hjt
    | Pipework => simp [syncTankPhotos]

/-- Witness for the tank-photo synchronisation on a concrete pair of
tanks, one with an existing slot and one without. -/
theorem tankPhotos_sync_witness :
    demoTank1 ∈ [demoTank1, demoTank2] ∧
    lookupTankPhoto demoTankImages.tankPhotos demoTank1.id =
      some ⟨"tank-1", some demoFile, none⟩ ∧
    demoTank2 ∈ [demoTank1, demoTank2] ∧
    lookupTankPhoto demoTankImages.tankPhotos demoTank2.id = none ∧
    ((syncTankPhotos JobType.Tank [demoTank1, demoTank2] demoTankImages).tankPhotos.map
        (fun tp => tp.tankId) = [demoTank1, demoTank2].map fun t => t.id) ∧
    (⟨"tank-1", some demoFile, none⟩ : TankPhotoSet) ∈
      (syncTankPhotos JobType.Tank [demoTank1, demoTank2] demoTankImages).tankPhotos ∧
    (⟨demoTank2.id, none, none⟩ : TankPhotoSet) ∈
      (syncTankPhotos JobType.Tank [demoTank1, demoTank2] demoTankImages).tankPhotos := by
  have h := tankPhotos_sync [demoTank1, demoTank2] demoTankImages
  exact ⟨by decide, by decide, by decide, by decide, h.1,
    h.2.1 demoTank1 (by decide) _ (by decide),
    h.2.2.1 demoTank2 (by decide) (by decide)⟩

/-! ## Claims about the shareable-link codec -/

/-- Claim C5, counterexample: an import that passes the `data`/`images`
validation but fails while decoding an image reports failure, yet the
JobRecord has already been replaced by the file's data — the prior
working copy is not retained unchanged. -/
theorem load_failure_half_updated_state :
    (handleLoadProjectFile demoState
        (some ⟨some demoData2, some demoBadImages⟩)).2 = false ∧
    (handleLoadProjectFile demoState
        (some ⟨some demoData2, some demoBadImages⟩)).1 ≠ demoState ∧
    (handleLoadProjectFile demoState
        (some ⟨some demoData2, some demoBadImages⟩)).1.data = demoData2 ∧
    (handleLoadProjectFile demoState
        (some ⟨some demoData2, some demoBadImages⟩)).1.images = demoState.images := by
  refine ⟨by decide, by decide, by decide, by decide⟩

/-- Claim C5 as amended: a file with a missing `data` or `images` key
(or an unparsable file) is rejected with the prior state fully retained;
a validated file whose images all decode replaces the whole state; but a
validated file with an undecodable image fails after the data commit,
leaving the new data alongside the old images. -/
theorem load_project_file_behaviour (st : AppState) (file : Option ProjectFile) :
    (file = none → handleLoadProjectFile st file = (st, false)) ∧
    (∀ pf, file = some pf → (pf.data = none ∨ pf.images = none) →
      handleLoadProjectFile st file = (st, false)) ∧
    (∀ pf d imgs newImgs, file = some pf → pf.data = some d →
      pf.images = some imgs → deserializeImages imgs = some newImgs →
      handleLoadProjectFile st file = (⟨d, newImgs⟩, true)) ∧
    (∀ pf d imgs, file = some pf → pf.data = some d →
      pf.images = some imgs → deserializeImages imgs = none →
      handleLoadProjectFile st file = (⟨d, st.images⟩, false)) := by
  refine ⟨?_, ?_, ?_, ?_⟩
  · rintro rfl
    rfl
  · rintro ⟨pd, pi⟩ rfl (h | h)
    · cases h
      rfl
    · cases h
      cases pd <;> rfl
  · rintro ⟨pd, pi⟩ d imgs newImgs rfl hd hi hdes
    cases hd
    cases hi
    simp [handleLoadProjectFile, hdes]
  · rintro ⟨pd, pi⟩ d imgs rfl hd hi hdes
    cases hd
    cases hi
    simp [handleLoadProjectFile, hdes]

/-- Witness for the loader behaviour: a validated file with decodable
(empty) images replaces the whole state and succeeds. -/
theorem load_project_file_behaviour_witness :
    deserializeImages (serializeImages demoImages) = some demoImages ∧
    handleLoadProjectFile demoState
        (some ⟨some demoData2, some (serializeImages demoImages)⟩) =
      (⟨demoData2, demoImages⟩, true) := by
  have hdes : deserializeImages (serializeImages demoImages) = some demoImages := by
    decide
  exact ⟨hdes,
    (load_project_file_behaviour demoState _).2.2.1 _ demoData2 _ demoImages
      rfl rfl rfl hdes⟩

/-! ## Claims about the draft autosave -/

/-- Claim C8: the autosave never surfaces an error — a throwing storage
write leaves the slot as it was and returns normally — and loading an
absent, unparsable, or undecodable draft yields `none` rather than an
exception, while a well-formed draft loads back. -/
theorem draft_autosave_error_handling (slot : Option DraftSlot)
    (data : ReportData) (images : ReportImages) (nowIso raw : String) :
    saveAutoDraft slot data images nowIso true = slot ∧
    loadAutoDraft (some (.malformed raw)) = none ∧
    loadAutoDraft none = none ∧
    (∀ t d imgs, deserializeImages imgs = none →
      loadAutoDraft (some (.wellFormed t d imgs)) = none) ∧
    (∀ t d imgs r, deserializeImages imgs = some r →
      loadAutoDraft (some (.wellFormed t d imgs)) = some (d, r)) := by
  refine ⟨rfl, rfl, rfl, ?_, ?_⟩
  · intro t d imgs h
    simp [loadAutoDraft, h]
  · intro t d imgs r h
    simp [loadAutoDraft, h]

/-- Witness for the autosave claim: a failing write keeps the malformed
slot; the malformed slot loads as `none`; a well-formed slot round
trips. -/
theorem draft_autosave_error_handling_witness :
    saveAutoDraft (some (.malformed "junk")) demoData demoImages "T0" true =
      some (.malformed "junk") ∧
    loadAutoDraft (some (.malformed "junk")) = none ∧
    deserializeImages (serializeImages demoImages) = some demoImages ∧
    loadAutoDraft (some (.wellFormed "T0" demoData (serializeImages demoImages))) =
      some (demoData, demoImages) := by
  have h := draft_autosave_error_handling (some (.malformed "junk"))
    demoData demoImages "T0" "junk"
  have hdes : deserializeImages (serializeImages demoImages) = some demoImages := by
    decide
  exact ⟨h.1, h.2.1, hdes, h.2.2.2.2 "T0" demoData _ demoImages hdes⟩
